import Mathlib

set_option maxRecDepth 100000

/-
Verification of the devfrnd batch migration engine
(src/devfrnd/db_migration_utils/db_migrator.py and
src/devfrnd/router/db_migration_service.py).

The engine is embedded shallowly:
* documents are identified by their _id, modelled as Nat;
* the target collection is a list of ids, the target database a list of
  (collection name, contents) pairs;
* the streaming cursor is the list of documents it will yield, in order;
* Python floats are modelled exactly as dyadic rationals in
  mantissa-times-two-to-the-exponent form, with explicit
  round-to-nearest-even at 53 significant bits, so that
  math.ceil(total_docs * (percentage / 100.0)) can be evaluated exactly;
* the asynchronous SIGINT flag _stop is modelled as a boolean schedule
  sampled once at every point where the code reads the flag, indexed by a
  check counter threaded through the state;
* driver faults (bulk-write failures, per-collection failures, connection
  failures, close failures) are supplied by oracles.
-/

/-! # Model of CPython double-precision arithmetic

`percentage / 100.0` and `total_docs * (...)` are IEEE-754 binary64
operations: the exact rational result is rounded to 53 significant bits,
ties to even.  All values occurring in the migration planner are well
inside the binary64 normal range, so overflow and subnormals cannot arise
and rounding the exact rational value to 53 bits models the hardware
exactly.  A double is represented as a pair `(m, e) : ℕ × ℤ` denoting
`m * 2 ^ e`. -/

/-- Number of binary digits of a natural number (`bitlen 0 = 0`),
written with explicit fuel so that it reduces in the kernel. -/
def bitlenAux : Nat → Nat → Nat
  | 0, _ => 0
  | f + 1, n => if n = 0 then 0 else bitlenAux f (n / 2) + 1

/-- Number of binary digits of a natural number. -/
def bitlen (n : Nat) : Nat := bitlenAux n n

/-- Round the positive rational `n / d` to 53 significant bits, ties to
even: the result `(m, e)` denotes `m * 2 ^ e` with `2 ^ 52 ≤ m ≤ 2 ^ 53`.
This is the binary64 rounding of `n / d` (the mantissa overflow case
`m = 2 ^ 53` still denotes the correct value).  `roundTo53 0 d = (0, _)`
denotes `0.0`. -/
def roundTo53 (n d : Nat) : Nat × Int :=
  let g : Int := (bitlen n : Int) - (bitlen d : Int)
  -- binary exponent of n / d: either g - 1 or g; n / d < 2 ^ g decides it
  let e : Int := if n * 2 ^ (-g).toNat < d * 2 ^ g.toNat then g - 1 else g
  -- scaled = (n / d) * 2 ^ (52 - e), an exact rational aa / bb in [2^52, 2^53)
  let t : Int := 52 - e
  let aa := n * 2 ^ t.toNat
  let bb := d * 2 ^ (-t).toNat
  let q := aa / bb
  let r := aa % bb
  let m := if 2 * r < bb then q
           else if bb < 2 * r then q + 1
           else if q % 2 = 0 then q else q + 1
  (m, e - 52)

/-- CPython conversion of a non-negative int to a double (exact below
`2 ^ 53`, rounded above). -/
def floatOfNat (N : Nat) : Nat × Int :=
  if N = 0 then (0, 0) else roundTo53 N 1

/-- IEEE binary64 multiplication of two doubles: the exact product of the
dyadic values, rounded back to 53 bits. -/
def floatMul (a b : Nat × Int) : Nat × Int :=
  if a.1 = 0 ∨ b.1 = 0 then (0, 0)
  else
    let r := roundTo53 (a.1 * b.1) 1
    (r.1, r.2 + a.2 + b.2)

/-- `math.ceil` of a non-negative double `(m, e)`: exact integer ceiling
of `m * 2 ^ e`. -/
def ceilFloat (x : Nat × Int) : Int :=
  if 0 ≤ x.2 then (x.1 : Int) * 2 ^ x.2.toNat
  else ((x.1 + 2 ^ (-x.2).toNat - 1) / 2 ^ (-x.2).toNat : Nat)

/-- The planned migration count exactly as the source computes it:
`num_to_migrate = math.ceil(total_docs * (percentage / 100.0))`
(db_migrator.py line 114).  `percentage / 100.0` converts both operands
to doubles (exact here) and performs a correctly rounded division, which
is `roundTo53 percentage 100`; the multiplication converts `total_docs`
to a double and rounds the exact product; `math.ceil` of a double is
exact. -/
def num_to_migrate (total_docs percentage : Nat) : Int :=
  ceilFloat (floatMul (floatOfNat total_docs) (roundTo53 percentage 100))

/-- The plan the spec prescribes: the exact integer ceiling
`⌈N * p / 100⌉`, computed as the standard ceiling division
`(N * p + 99) / 100` on naturals. -/
def ceilExactPlan (total_docs percentage : Nat) : Int :=
  ((total_docs * percentage + 99) / 100 : Nat)

/-! # Model of the per-collection batch-copy loop (lines 127-165)

A document is identified by its `_id : Nat`.  The cursor is the list of
documents it will still yield, in order.  The `_stop` flag is an
asynchronous boolean: the model samples a monotone schedule
`stop : Nat → Bool` at successive read points, counted by the field `t`.
Bulk-write failures other than duplicate keys are injected by an oracle
`fault`, indexed by the number of `insert_many` calls made so far in the
collection. -/

/-- Environment-injected outcome of one `insert_many` call:

* `ok` — the call returns, or raises a `BulkWriteError` whose
  `writeErrors` are all duplicate-key (code 11000) errors; duplicates
  are determined by the target contents, not by this oracle.  The
  handler at lines 150-156 logs and swallows the `BulkWriteError`.
* `bulkErr bad` — the call raises a `BulkWriteError` whose
  `writeErrors` also carry non-duplicate per-document write errors
  (e.g. document validation failures) for the batch documents listed in
  `bad`; those documents are rejected and not written, the rest of the
  batch is written as usual.  The same handler logs each non-11000
  error (line 155) and swallows the exception, so the loop continues
  and `migrated_count` still advances by the full batch length.
* `pymongoErr` — an operation-level `PyMongoError` that is not a
  `BulkWriteError` (e.g. a connection failure); line 159 breaks the
  loop.
* `unexpectedErr` — an unclassified exception; line 162 breaks the
  loop. -/
inductive WriteFault
  | ok
  | bulkErr (bad : List Nat)
  | pymongoErr
  | unexpectedErr
deriving DecidableEq

/-- State of the batch-copy loop.  `t` counts the `_stop` sampling
points; `attempts` records the length of every batch submitted to
`insert_many`, in order; `abortedWrite` is set when a non-duplicate
write error broke the loop. -/
structure MigState where
  migrated : Nat
  remaining : List Nat
  target : List Nat
  t : Nat
  attempts : List Nat
  abortedWrite : Bool
deriving DecidableEq, Repr

/-- The inner pull loop (lines 131-141): `for _ in range(batch_size)`,
breaking when `migrated_count >= num_to_migrate` (a condition that is
constant during the pull, since `migrated_count` is only updated after
the batch is written), appending `next(cursor)` and treating
`StopIteration` as `pass`.  Returns the accumulated batch and the rest
of the cursor. -/
def pullBatchAux (migrated num : Nat) : Nat → List Nat → List Nat → List Nat × List Nat
  | 0, acc, rem => (acc, rem)
  | k + 1, acc, rem =>
    if num ≤ migrated then (acc, rem)
    else
      match rem with
      | [] => pullBatchAux migrated num k acc []
      | d :: rest => pullBatchAux migrated num k (acc ++ [d]) rest

/-- One run of the pull loop, starting from the empty `docs` list. -/
def pullBatch (migrated num b : Nat) (rem : List Nat) : List Nat × List Nat :=
  pullBatchAux migrated num b [] rem

/-- `insert_many(docs, ordered=False)` against a target collection with
contents `tgt`: every document whose _id is not yet present is inserted;
every duplicate raises a code-11000 write error that the driver collects
without stopping the remaining documents.  Returns the new contents and
the number of duplicate-key errors (`BulkWriteError` is raised iff that
number is positive, and lines 150-156 swallow it). -/
def insertUnordered : List Nat → List Nat → List Nat × Nat
  | tgt, [] => (tgt, 0)
  | tgt, d :: ds =>
    if d ∈ tgt then
      let r := insertUnordered tgt ds
      (r.1, r.2 + 1)
    else insertUnordered (tgt ++ [d]) ds

/-- Result of one iteration of the while loop: either continue with a new
state or leave the loop with a final state. -/
inductive StepRes
  | next (s : MigState)
  | done (s : MigState)
deriving DecidableEq

/-- One iteration of `while migrated_count < num_to_migrate and not
_stop` (lines 128-165).  The head samples the stop schedule at index
`s.t`; a pulled empty batch breaks (lines 145-146); otherwise
`insert_many` is called.  A `BulkWriteError` — whether its
`writeErrors` are only duplicates (`.ok` with conflicts) or also carry
non-duplicate per-document errors (`.bulkErr bad`) — is logged and
swallowed by lines 150-156, so control reaches line 164 and
`migrated_count` advances by the full batch length and the loop
continues; only an operation-level `PyMongoError` (line 159) or an
unexpected exception (line 162) breaks the loop with the collection
aborted. -/
def loopStep (stop : Nat → Bool) (fault : Nat → WriteFault) (num b : Nat) (s : MigState) : StepRes :=
  if s.migrated < num ∧ stop s.t = false then
    if (pullBatch s.migrated num b s.remaining).1 = [] then
      .done { s with remaining := (pullBatch s.migrated num b s.remaining).2, t := s.t + 1 }
    else
      match fault s.attempts.length with
      | .ok =>
        .next { migrated := s.migrated + (pullBatch s.migrated num b s.remaining).1.length,
                remaining := (pullBatch s.migrated num b s.remaining).2,
                target := (insertUnordered s.target (pullBatch s.migrated num b s.remaining).1).1,
                t := s.t + 1,
                attempts := s.attempts ++ [(pullBatch s.migrated num b s.remaining).1.length],
                abortedWrite := s.abortedWrite }
      | .bulkErr bad =>
        .next { migrated := s.migrated + (pullBatch s.migrated num b s.remaining).1.length,
                remaining := (pullBatch s.migrated num b s.remaining).2,
                target := (insertUnordered s.target
                  (((pullBatch s.migrated num b s.remaining).1).filter
                    (fun d => decide (d ∉ bad)))).1,
                t := s.t + 1,
                attempts := s.attempts ++ [(pullBatch s.migrated num b s.remaining).1.length],
                abortedWrite := s.abortedWrite }
      | .pymongoErr =>
        .done { s with
                remaining := (pullBatch s.migrated num b s.remaining).2,
                t := s.t + 1,
                attempts := s.attempts ++ [(pullBatch s.migrated num b s.remaining).1.length],
                abortedWrite := true }
      | .unexpectedErr =>
        .done { s with
                remaining := (pullBatch s.migrated num b s.remaining).2,
                t := s.t + 1,
                attempts := s.attempts ++ [(pullBatch s.migrated num b s.remaining).1.length],
                abortedWrite := true }
  else .done { s with t := s.t + 1 }

/-- The batch-copy loop with explicit fuel; any fuel exceeding the cursor
length yields the same result (proved below). -/
def loopFuel (stop : Nat → Bool) (fault : Nat → WriteFault) (num b : Nat) :
    Nat → MigState → Option MigState
  | 0, _ => none
  | fuel + 1, s =>
    match loopStep stop fault num b s with
    | .done r => some r
    | .next s' => loopFuel stop fault num b fuel s'

/-- The batch-copy loop, run with sufficient fuel. -/
def migrateLoop (stop : Nat → Bool) (fault : Nat → WriteFault) (num b : Nat) (s : MigState) : MigState :=
  (loopFuel stop fault num b (s.remaining.length + 1) s).getD s

/-- A schedule on which the `_stop` flag is never set. -/
def noStop : Nat → Bool := fun _ => false

/-- A fault oracle on which every `insert_many` call succeeds. -/
def allOk : Nat → WriteFault := fun _ => .ok

/-- The loop state at the start of a collection copy (lines 118-121):
nothing migrated, the cursor about to yield `docs`, target contents
`tgt`, next stop sample at index `t`. -/
def initState (docs tgt : List Nat) (t : Nat) : MigState :=
  ⟨0, docs, tgt, t, [], false⟩

/-! # Model of the collection loop and the run (lines 85-178)

The target database is a list of (collection name, contents) pairs.
Per-collection driver failures (collection access, count estimate,
cursor creation — lines 89-102 and 120-125) are injected by an oracle,
one value per collection index. -/

/-- Environment-injected per-collection failure: collection access error
(lines 89-95), `estimated_document_count` error (lines 97-102), cursor
creation error (lines 120-125), or none. -/
inductive CollFault
  | ok
  | accessErr
  | countErr
  | cursorErr
deriving DecidableEq

/-- A source collection: its name, the result of
`estimated_document_count()` and the documents its full-scan cursor
yields, in order (the estimate may lag the actual contents). -/
structure Collection where
  name : Nat
  estCount : Nat
  docs : List Nat
deriving DecidableEq

/-- Everything observable about the processing of one collection
(one iteration of the `for coll_name in collections` loop, lines
85-175). -/
structure CollResult where
  db : List (Nat × List Nat)
  t : Nat
  cursorCreated : Bool
  cursorClosed : Bool
  migrated : Nat
  docsRead : Nat
  attempts : List Nat
  abortedWrite : Bool
  overallAdv : Nat
deriving DecidableEq

/-- The collection names present in the target database
(`target_db.list_collection_names()`). -/
def dbNames (db : List (Nat × List Nat)) : List Nat := db.map Prod.fst

/-- Contents of a named target collection (a collection never written to
reads as empty). -/
def dbGet (db : List (Nat × List Nat)) (name : Nat) : List Nat :=
  ((db.lookup name).getD [])

/-- Store contents under a name, creating the collection if absent
(inserts auto-create collections in MongoDB). -/
def dbSet : List (Nat × List Nat) → Nat → List Nat → List (Nat × List Nat)
  | [], name, docs => [(name, docs)]
  | e :: rest, name, docs =>
    if e.1 = name then (name, docs) :: rest else e :: dbSet rest name docs

/-- Processing of one collection (lines 89-175): access and count can
fail (skip, advance overall progress); an estimated count of 0 only
ensures the target collection exists (lines 104-112); otherwise the plan
is computed (line 114), the cursor is created (line 121, can fail and
skip), the batch-copy loop runs, and the `finally` of lines 168-172
closes the cursor on every exit.  Every path advances the overall
progress bar exactly once (lines 94, 101, 111, 124, 174).  `t` is the
index of the next `_stop` sampling point. -/
def processColl (stop : Nat → Bool) (fault : Nat → WriteFault) (pct b : Nat)
    (cf : CollFault) (c : Collection) (db : List (Nat × List Nat)) (t : Nat) : CollResult :=
  match cf with
  | .accessErr => ⟨db, t, false, false, 0, 0, [], false, 1⟩
  | .countErr => ⟨db, t, false, false, 0, 0, [], false, 1⟩
  | _ =>
    if c.estCount = 0 then
      { db := if c.name ∈ dbNames db then db else db ++ [(c.name, [])],
        t := t, cursorCreated := false, cursorClosed := false,
        migrated := 0, docsRead := 0, attempts := [], abortedWrite := false,
        overallAdv := 1 }
    else
      match cf with
      | .cursorErr => ⟨db, t, false, false, 0, 0, [], false, 1⟩
      | _ =>
        let r := migrateLoop stop fault (num_to_migrate c.estCount pct).toNat b
          (initState c.docs (dbGet db c.name) t)
        { db := dbSet db c.name r.target, t := r.t,
          cursorCreated := true, cursorClosed := true,
          migrated := r.migrated, docsRead := c.docs.length - r.remaining.length,
          attempts := r.attempts, abortedWrite := r.abortedWrite,
          overallAdv := 1 }

/-- State of the overall run: target database, overall progress count,
next `_stop` sampling index, and how many collections have been
started. -/
structure RunState where
  db : List (Nat × List Nat)
  overall : Nat
  t : Nat
  collsStarted : Nat
deriving DecidableEq

/-- The `for coll_name in collections` loop (lines 85-175).  Its head
checks `if _stop: break` (lines 86-87), sampling the schedule once per
collection; a set flag breaks out, skipping every remaining collection.
Write faults are indexed per collection (`fault2 i`) and per-collection
failures by `cf i`. -/
def runColls (stop : Nat → Bool) (fault2 : Nat → Nat → WriteFault) (pct b : Nat)
    (cf : Nat → CollFault) : List Collection → Nat → RunState → RunState
  | [], _, st => st
  | c :: cs, i, st =>
    if stop st.t then { st with t := st.t + 1 }
    else
      let r := processColl stop (fault2 i) pct b (cf i) c st.db (st.t + 1)
      runColls stop fault2 pct b cf cs (i + 1)
        { db := r.db, overall := st.overall + r.overallAdv, t := r.t,
          collsStarted := st.collsStarted + 1 }

/-! # Model of the connection manager and the whole run (lines 39-185) -/

/-- Where a run can be cut short before the collection loop: the two
`MongoClient` constructions and pings (lines 47-54; a failed source
construction leaves both handles `None`, a failed target construction
leaves the target `None`, a failed ping leaves both constructed),
database access (lines 56-61), `list_collection_names` (lines 65-69), or
an unclassified exception reaching the top-level handler (lines
180-181). -/
inductive RunStage
  | srcConstructFail
  | tgtConstructFail
  | pingFail
  | dbAccessFail
  | listFail
  | unexpectedFail
  | ok
deriving DecidableEq

/-- What `_safe_close` did to a handle. -/
inductive CloseOutcome
  | notCalled
  | closedOk
  | closeRaisedCaught
deriving DecidableEq

/-- `client.close()`: may raise (oracle-controlled). -/
def closeCall (fails : Bool) : Except String Unit :=
  if fails then .error "close error" else .ok ()

/-- The body of `_safe_close` before its `except` clause (lines 33-35):
`if client: client.close()` — a `None` client is a no-op, otherwise the
close is attempted, and its exception (if any) propagates out of the
body into the handler. -/
def safeCloseBody (client : Option Unit) (fails : Bool) : Except String CloseOutcome :=
  match client with
  | none => .ok .notCalled
  | some _ =>
    match closeCall fails with
    | .ok _ => .ok .closedOk
    | .error e => .error e

/-- `_safe_close` (lines 32-37): the `except Exception` handler catches
whatever the body raised, logs it, and returns normally. -/
def safeClose (client : Option Unit) (fails : Bool) : CloseOutcome :=
  match safeCloseBody client fails with
  | .ok o => o
  | .error _ => .closeRaisedCaught

/-- Observable outcome of `_migrate`: which handles were opened, what
`_safe_close` did to each in the `finally` block, and the final run
state when the collection loop was reached. -/
structure MigrateResult where
  srcOpened : Bool
  tgtOpened : Bool
  srcClose : CloseOutcome
  tgtClose : CloseOutcome
  run : Option RunState
deriving DecidableEq

/-- The `try` body of `_migrate` (lines 45-178): which clients end up
opened, and the collection-loop result when execution reaches it. -/
def migrateBody (stage : RunStage) (stop : Nat → Bool) (fault2 : Nat → Nat → WriteFault)
    (pct b : Nat) (cf : Nat → CollFault) (colls : List Collection) :
    Bool × Bool × Option RunState :=
  match stage with
  | .srcConstructFail => (false, false, none)
  | .tgtConstructFail => (true, false, none)
  | .pingFail => (true, true, none)
  | .dbAccessFail => (true, true, none)
  | .listFail => (true, true, none)
  | .unexpectedFail => (true, true, none)
  | .ok => (true, true, some (runColls stop fault2 pct b cf colls 0 ⟨[], 0, 0, 0⟩))

/-- `_migrate` (lines 39-185): the body runs to whatever point the
environment allows, then the `finally` block (lines 182-185) calls
`_safe_close` on both handles — passing `None` for a handle that was
never assigned. -/
def migrateRun (stage : RunStage) (stop : Nat → Bool) (fault2 : Nat → Nat → WriteFault)
    (pct b : Nat) (cf : Nat → CollFault) (colls : List Collection)
    (sf tf : Bool) : MigrateResult :=
  { srcOpened := (migrateBody stage stop fault2 pct b cf colls).1,
    tgtOpened := (migrateBody stage stop fault2 pct b cf colls).2.1,
    srcClose := safeClose
      (if (migrateBody stage stop fault2 pct b cf colls).1 then some () else none) sf,
    tgtClose := safeClose
      (if (migrateBody stage stop fault2 pct b cf colls).2.1 then some () else none) tf,
    run := (migrateBody stage stop fault2 pct b cf colls).2.2 }

/-! # Model of the CLI entry point (db_migration_service.py lines 21-58) -/

/-- Whether the `migrate` click command reached `_migrate` (and hence
opened connections) or terminated the process first. -/
inductive CliOutcome
  | exitedNoConnect
  | connected
deriving DecidableEq

/-- The `migrate` CLI command (db_migration_service.py lines 31-50): the
percentage is range-checked and an out-of-range value runs `sys.exit(1)`
before `_migrate` is ever called; nothing validates `batch_size`; the
active direction `to_local` then calls `_migrate`, which opens the
connections. -/
def cli_migrate (percentage batchSize : Int) : CliOutcome :=
  if ¬(1 ≤ percentage ∧ percentage ≤ 100) then .exitedNoConnect else .connected

/-! # Supporting lemmas -/

/-- Under the while-loop guard the inner break condition is constant and
never fires, so the pull loop simply takes the next `k` cursor
documents. -/
theorem pullBatchAux_eq (migrated num : Nat) (h : migrated < num) :
    ∀ (k : Nat) (acc rem : List Nat),
      pullBatchAux migrated num k acc rem = (acc ++ rem.take k, rem.drop k) := by
  intro k
  induction k with
  | zero => intro acc rem; simp [pullBatchAux]
  | succ k ih =>
    intro acc rem
    cases rem with
    | nil => simp [pullBatchAux, Nat.not_le.mpr h, ih]
    | cons d rest => simp [pullBatchAux, Nat.not_le.mpr h, ih]

/-- A pulled batch is exactly `take batch_size` of the cursor. -/
theorem pullBatch_eq {migrated num : Nat} (h : migrated < num) (b : Nat) (rem : List Nat) :
    pullBatch migrated num b rem = (rem.take b, rem.drop b) := by
  simp [pullBatch, pullBatchAux_eq migrated num h]

/-- Inversion for a continuing loop iteration (whether the insert
succeeded outright, hit only duplicate keys, or raised a
`BulkWriteError` with non-duplicate per-document errors): the iteration
was entered under the guard with the stop flag clear, the batch was
non-empty, and the new state advanced `migrated_count` by the full
batch length, consumed the batch from the cursor, sampled the stop flag
once, recorded one insert attempt and did not mark the collection
aborted. -/
theorem loopStep_next_inv {stop : Nat → Bool} {fault : Nat → WriteFault}
    {num b : Nat} {s s' : MigState}
    (h : loopStep stop fault num b s = .next s') :
    s.migrated < num ∧ stop s.t = false ∧
    (pullBatch s.migrated num b s.remaining).1 ≠ [] ∧
    s'.migrated = s.migrated + (pullBatch s.migrated num b s.remaining).1.length ∧
    s'.remaining = (pullBatch s.migrated num b s.remaining).2 ∧
    s'.t = s.t + 1 ∧
    s'.attempts = s.attempts ++ [(pullBatch s.migrated num b s.remaining).1.length] ∧
    s'.abortedWrite = s.abortedWrite := by
  by_cases hc : s.migrated < num ∧ stop s.t = false
  · by_cases he : (pullBatch s.migrated num b s.remaining).1 = []
    · simp [loopStep, hc, he] at h
    · cases hf : fault s.attempts.length with
      | ok =>
        simp only [loopStep, if_pos hc, if_neg he, hf, StepRes.next.injEq] at h
        subst h
        exact ⟨hc.1, hc.2, he, rfl, rfl, rfl, rfl, rfl⟩
      | bulkErr bad =>
        simp only [loopStep, if_pos hc, if_neg he, hf, StepRes.next.injEq] at h
        subst h
        exact ⟨hc.1, hc.2, he, rfl, rfl, rfl, rfl, rfl⟩
      | pymongoErr => simp [loopStep, hc, he, hf] at h
      | unexpectedErr => simp [loopStep, hc, he, hf] at h
  · simp [loopStep, hc] at h

/-- Inversion for a terminating loop iteration: either the loop was not
entered or the batch was empty (no insert attempted) or the batch's
write failed fatally (one more insert attempted, collection aborted);
in every case the stop flag was sampled once. -/
theorem loopStep_done_inv {stop : Nat → Bool} {fault : Nat → WriteFault}
    {num b : Nat} {s r : MigState}
    (h : loopStep stop fault num b s = .done r) :
    r.t = s.t + 1 ∧ r.migrated = s.migrated ∧
    (r.attempts = s.attempts ∨
      (r.attempts = s.attempts ++ [(pullBatch s.migrated num b s.remaining).1.length] ∧
        s.migrated < num ∧ stop s.t = false ∧ r.abortedWrite = true)) := by
  by_cases hc : s.migrated < num ∧ stop s.t = false
  · by_cases he : (pullBatch s.migrated num b s.remaining).1 = []
    · simp only [loopStep, if_pos hc, if_pos he, StepRes.done.injEq] at h
      subst h; exact ⟨rfl, rfl, Or.inl rfl⟩
    · cases hf : fault s.attempts.length with
      | ok => simp [loopStep, hc, he, hf] at h
      | bulkErr bad => simp [loopStep, hc, he, hf] at h
      | pymongoErr =>
        simp only [loopStep, if_pos hc, if_neg he, hf, StepRes.done.injEq] at h
        subst h
        exact ⟨rfl, rfl, Or.inr ⟨rfl, hc.1, hc.2, rfl⟩⟩
      | unexpectedErr =>
        simp only [loopStep, if_pos hc, if_neg he, hf, StepRes.done.injEq] at h
        subst h
        exact ⟨rfl, rfl, Or.inr ⟨rfl, hc.1, hc.2, rfl⟩⟩
  · simp only [loopStep, if_neg hc, StepRes.done.injEq] at h
    subst h
    exact ⟨rfl, rfl, Or.inl rfl⟩

/-- Unfolding equation of the fuelled loop. -/
theorem loopFuel_succ (stop : Nat → Bool) (fault : Nat → WriteFault)
    (num b fuel : Nat) (s : MigState) :
    loopFuel stop fault num b (fuel + 1) s =
      match loopStep stop fault num b s with
      | .done r => some r
      | .next s' => loopFuel stop fault num b fuel s' := rfl

/-- A continuing iteration consumes at least one cursor document. -/
theorem loopStep_next_remaining {stop : Nat → Bool} {fault : Nat → WriteFault}
    {num b : Nat} {s s' : MigState}
    (h : loopStep stop fault num b s = .next s') :
    s'.remaining.length < s.remaining.length := by
  obtain ⟨h1, -, h3, -, hrem, -, -, -⟩ := loopStep_next_inv h
  rw [hrem]
  rw [pullBatch_eq h1] at h3 ⊢
  rcases List.eq_nil_or_concat s.remaining with hnil | -
  · simp [hnil] at h3
  · have hb : b ≠ 0 := by rintro rfl; simp at h3
    have hlen : s.remaining.length ≠ 0 := by
      intro h0
      rw [List.length_eq_zero] at h0
      simp [h0] at h3
    simp only [List.length_drop]
    omega

/-- With fuel exceeding the cursor length the loop returns. -/
theorem loopFuel_isSome (stop : Nat → Bool) (fault : Nat → WriteFault) (num b : Nat) :
    ∀ fuel s, s.remaining.length < fuel →
      (loopFuel stop fault num b fuel s).isSome = true := by
  intro fuel
  induction fuel with
  | zero => intro s h; omega
  | succ fuel ih =>
    intro s h
    rw [loopFuel_succ]
    cases hstep : loopStep stop fault num b s with
    | done r => simp
    | next s' =>
      have hlt := loopStep_next_remaining hstep
      exact ih s' (by omega)

/-- Adding one unit of fuel beyond the cursor length changes nothing. -/
theorem loopFuel_succ_stable (stop : Nat → Bool) (fault : Nat → WriteFault) (num b : Nat) :
    ∀ fuel s, s.remaining.length < fuel →
      loopFuel stop fault num b (fuel + 1) s = loopFuel stop fault num b fuel s := by
  intro fuel
  induction fuel with
  | zero => intro s h; omega
  | succ fuel ih =>
    intro s h
    rw [loopFuel_succ, loopFuel_succ]
    cases hstep : loopStep stop fault num b s with
    | done r => rfl
    | next s' =>
      have hlt := loopStep_next_remaining hstep
      exact ih s' (by omega)

/-- Any fuel beyond the cursor length yields the same result. -/
theorem loopFuel_stable (stop : Nat → Bool) (fault : Nat → WriteFault) (num b : Nat)
    (fuel fuel' : Nat) (s : MigState)
    (h : s.remaining.length < fuel) (hle : fuel ≤ fuel') :
    loopFuel stop fault num b fuel' s = loopFuel stop fault num b fuel s := by
  induction fuel', hle using Nat.le_induction with
  | base => rfl
  | succ fuel' hle ih => rw [loopFuel_succ_stable stop fault num b fuel' s (by omega), ih]

/-- The stop-sample counter never decreases across the loop. -/
theorem loopFuel_t_mono (stop : Nat → Bool) (fault : Nat → WriteFault) (num b : Nat) :
    ∀ fuel s r, loopFuel stop fault num b fuel s = some r → s.t ≤ r.t := by
  intro fuel
  induction fuel with
  | zero => intro s r h; simp [loopFuel] at h
  | succ fuel ih =>
    intro s r h
    rw [loopFuel_succ] at h
    cases hstep : loopStep stop fault num b s with
    | done r' =>
      rw [hstep] at h
      obtain ⟨ht, -, -⟩ := loopStep_done_inv hstep
      cases h
      omega
    | next s' =>
      rw [hstep] at h
      obtain ⟨-, -, -, -, -, ht, -, -⟩ := loopStep_next_inv hstep
      have := ih _ _ h
      omega

/-- `migrateLoop` is the unique fuel-independent result of the loop. -/
theorem migrateLoop_eq_loopFuel (stop : Nat → Bool) (fault : Nat → WriteFault)
    (num b : Nat) (s : MigState) :
    loopFuel stop fault num b (s.remaining.length + 1) s =
      some (migrateLoop stop fault num b s) := by
  have h := loopFuel_isSome stop fault num b (s.remaining.length + 1) s (by omega)
  obtain ⟨r, hr⟩ := Option.isSome_iff_exists.mp h
  rw [migrateLoop, hr]
  rfl

/-- After an unordered insert, a document is present iff it was present
before or was in the batch. -/
theorem insertUnordered_mem (d : Nat) :
    ∀ (ds tgt : List Nat), d ∈ (insertUnordered tgt ds).1 ↔ d ∈ tgt ∨ d ∈ ds := by
  intro ds
  induction ds with
  | nil => intro tgt; simp [insertUnordered]
  | cons a ds ih =>
    intro tgt
    by_cases ha : a ∈ tgt
    · simp only [insertUnordered, if_pos ha, ih]
      constructor
      · rintro (h | h)
        · exact Or.inl h
        · exact Or.inr (List.mem_cons_of_mem a h)
      · rintro (h | h)
        · exact Or.inl h
        · rcases List.mem_cons.mp h with rfl | h
          · exact Or.inl ha
          · exact Or.inr h
    · simp only [insertUnordered, if_neg ha, ih, List.mem_append, List.mem_singleton,
        List.mem_cons]
      tauto

/-- Inserted documents plus duplicate errors account exactly for the
batch length. -/
theorem insertUnordered_length :
    ∀ (ds tgt : List Nat),
      (insertUnordered tgt ds).1.length + (insertUnordered tgt ds).2
        = tgt.length + ds.length := by
  intro ds
  induction ds with
  | nil => intro tgt; simp [insertUnordered]
  | cons a ds ih =>
    intro tgt
    by_cases ha : a ∈ tgt
    · simp only [insertUnordered, if_pos ha, List.length_cons]
      have := ih tgt
      omega
    · simp only [insertUnordered, if_neg ha, List.length_cons]
      have := ih (tgt ++ [a])
      simp only [List.length_append, List.length_singleton] at this
      omega

/-- A batch containing a document already present produces at least one
duplicate-key error. -/
theorem insertUnordered_dup_pos :
    ∀ (ds tgt : List Nat), (∃ d ∈ ds, d ∈ tgt) → 0 < (insertUnordered tgt ds).2 := by
  intro ds
  induction ds with
  | nil => intro tgt h; simp at h
  | cons a ds ih =>
    intro tgt ⟨d, hd, hdt⟩
    by_cases ha : a ∈ tgt
    · simp only [insertUnordered, if_pos ha]
      omega
    · rcases List.mem_cons.mp hd with rfl | hd
      · exact absurd hdt ha
      · simp only [insertUnordered, if_neg ha]
        exact ih (tgt ++ [a]) ⟨d, hd, List.mem_append_left _ hdt⟩

/-- The stop counter does not decrease across the whole loop. -/
theorem migrateLoop_t_ge (stop : Nat → Bool) (fault : Nat → WriteFault)
    (num b : Nat) (s : MigState) :
    s.t ≤ (migrateLoop stop fault num b s).t :=
  loopFuel_t_mono stop fault num b _ s _ (migrateLoop_eq_loopFuel stop fault num b s)

/-- Every branch of per-collection processing advances the overall
progress bar exactly once. -/
theorem processColl_overallAdv (stop : Nat → Bool) (fault : Nat → WriteFault)
    (pct b : Nat) (cf : CollFault) (c : Collection)
    (db : List (Nat × List Nat)) (t : Nat) :
    (processColl stop fault pct b cf c db t).overallAdv = 1 := by
  cases cf <;> by_cases h0 : c.estCount = 0 <;> simp [processColl, h0]

/-- Per-collection processing never rewinds the stop counter. -/
theorem processColl_t_ge (stop : Nat → Bool) (fault : Nat → WriteFault)
    (pct b : Nat) (cf : CollFault) (c : Collection)
    (db : List (Nat × List Nat)) (t : Nat) :
    t ≤ (processColl stop fault pct b cf c db t).t := by
  cases cf with
  | accessErr => exact Nat.le_refl t
  | countErr => exact Nat.le_refl t
  | ok =>
    by_cases h0 : c.estCount = 0
    · simp [processColl, h0]
    · simpa [processColl, h0] using
        migrateLoop_t_ge stop fault (num_to_migrate c.estCount pct).toNat b
          (initState c.docs (dbGet db c.name) t)
  | cursorErr =>
    by_cases h0 : c.estCount = 0
    · simp [processColl, h0]
    · simp [processColl, h0]

/-- Unfolding equation of the collection loop. -/
theorem runColls_cons (stop : Nat → Bool) (fault2 : Nat → Nat → WriteFault)
    (pct b : Nat) (cf : Nat → CollFault) (c : Collection) (cs : List Collection)
    (i : Nat) (st : RunState) :
    runColls stop fault2 pct b cf (c :: cs) i st =
      if stop st.t then { st with t := st.t + 1 }
      else
        runColls stop fault2 pct b cf cs (i + 1)
          { db := (processColl stop (fault2 i) pct b (cf i) c st.db (st.t + 1)).db,
            overall := st.overall
              + (processColl stop (fault2 i) pct b (cf i) c st.db (st.t + 1)).overallAdv,
            t := (processColl stop (fault2 i) pct b (cf i) c st.db (st.t + 1)).t,
            collsStarted := st.collsStarted + 1 } := rfl

/-- With the stop flag never set, the overall progress counter ends at
the full collection count, whatever faults occurred. -/
theorem runColls_overall_noStop (fault2 : Nat → Nat → WriteFault) (pct b : Nat)
    (cf : Nat → CollFault) :
    ∀ (colls : List Collection) (i : Nat) (st : RunState),
      (runColls noStop fault2 pct b cf colls i st).overall
        = st.overall + colls.length := by
  intro colls
  induction colls with
  | nil => intro i st; simp [runColls]
  | cons c cs ih =>
    intro i st
    rw [runColls_cons, if_neg (by simp [noStop]), ih]
    dsimp only
    rw [processColl_overallAdv]
    simp only [List.length_cons]
    omega

/-- A monotone stop schedule that is set at `s0` is set everywhere from
`s0` on. -/
theorem stop_ge_of_mono (stop : Nat → Bool)
    (hmono : ∀ i, stop i = true → stop (i + 1) = true) (s0 : Nat)
    (hs0 : stop s0 = true) : ∀ i, s0 ≤ i → stop i = true := by
  intro i hi
  induction i, hi using Nat.le_induction with
  | base => exact hs0
  | succ i hi ih => exact hmono i ih

/-- Once the stop flag is set at sample index `s0`, the batch loop
makes no insert attempt at or beyond that index: the number of
attempted batches is bounded by the samples remaining before `s0`. -/
theorem loopFuel_attempts_bound (stop : Nat → Bool) (fault : Nat → WriteFault)
    (num b : Nat) (s0 : Nat)
    (hmono : ∀ i, stop i = true → stop (i + 1) = true) (hs0 : stop s0 = true) :
    ∀ fuel s r, loopFuel stop fault num b fuel s = some r →
      r.attempts.length ≤ s.attempts.length + (s0 - s.t) := by
  intro fuel
  induction fuel with
  | zero => intro s r h; simp [loopFuel] at h
  | succ fuel ih =>
    intro s r h
    rw [loopFuel_succ] at h
    cases hstep : loopStep stop fault num b s with
    | done r' =>
      rw [hstep, Option.some.injEq] at h
      subst h
      obtain ⟨-, -, hcase⟩ := loopStep_done_inv hstep
      rcases hcase with hsame | ⟨hatt, -, hfalse, -⟩
      · rw [hsame]; omega
      · have hlt : s.t < s0 := by
          by_contra hge
          rw [stop_ge_of_mono stop hmono s0 hs0 s.t (by omega)] at hfalse
          cases hfalse
        rw [hatt]
        simp only [List.length_append, List.length_singleton]
        omega
    | next s' =>
      rw [hstep] at h
      obtain ⟨-, hfalse, -, -, -, ht, hatt, -⟩ := loopStep_next_inv hstep
      have hlt : s.t < s0 := by
        by_contra hge
        rw [stop_ge_of_mono stop hmono s0 hs0 s.t (by omega)] at hfalse
        cases hfalse
      have hrec := ih s' r h
      rw [hatt, ht] at hrec
      simp only [List.length_append, List.length_singleton] at hrec
      omega

/-- Once the stop flag is set at sample index `s0`, no collection is
started at or beyond that index. -/
theorem runColls_started_bound (stop : Nat → Bool) (fault2 : Nat → Nat → WriteFault)
    (pct b : Nat) (cf : Nat → CollFault) (s0 : Nat)
    (hmono : ∀ i, stop i = true → stop (i + 1) = true) (hs0 : stop s0 = true) :
    ∀ (colls : List Collection) (i : Nat) (st : RunState),
      (runColls stop fault2 pct b cf colls i st).collsStarted
        ≤ st.collsStarted + (s0 - st.t) := by
  intro colls
  induction colls with
  | nil => intro i st; simp [runColls]
  | cons c cs ih =>
    intro i st
    by_cases hstop : stop st.t = true
    · rw [runColls_cons, if_pos hstop]
      dsimp only
      omega
    · have hfalse : stop st.t = false := by
        revert hstop; cases stop st.t <;> simp
      have hlt : st.t < s0 := by
        by_contra hge
        rw [stop_ge_of_mono stop hmono s0 hs0 st.t (by omega)] at hfalse
        cases hfalse
      rw [runColls_cons, if_neg (by simp [hfalse])]
      refine le_trans (ih (i + 1) _) ?_
      have hge1 := processColl_t_ge stop (fault2 i) pct b (cf i) c st.db (st.t + 1)
      dsimp only
      omega

/-- Equation for an entered iteration whose write succeeds (possibly
with swallowed duplicate-key errors). -/
theorem loopStep_ok_eq {stop : Nat → Bool} {fault : Nat → WriteFault}
    {num b : Nat} {s : MigState}
    (h1 : s.migrated < num) (h2 : stop s.t = false)
    (h3 : (pullBatch s.migrated num b s.remaining).1 ≠ [])
    (h4 : fault s.attempts.length = WriteFault.ok) :
    loopStep stop fault num b s = .next
      { migrated := s.migrated + (pullBatch s.migrated num b s.remaining).1.length,
        remaining := (pullBatch s.migrated num b s.remaining).2,
        target := (insertUnordered s.target (pullBatch s.migrated num b s.remaining).1).1,
        t := s.t + 1,
        attempts := s.attempts ++ [(pullBatch s.migrated num b s.remaining).1.length],
        abortedWrite := s.abortedWrite } := by
  simp [loopStep, h1, h2, h3, h4]

/-- Equation for an entered iteration whose write raises
`PyMongoError`. -/
theorem loopStep_pymongo_eq {stop : Nat → Bool} {fault : Nat → WriteFault}
    {num b : Nat} {s : MigState}
    (h1 : s.migrated < num) (h2 : stop s.t = false)
    (h3 : (pullBatch s.migrated num b s.remaining).1 ≠ [])
    (h4 : fault s.attempts.length = WriteFault.pymongoErr) :
    loopStep stop fault num b s = .done
      { s with
        remaining := (pullBatch s.migrated num b s.remaining).2,
        t := s.t + 1,
        attempts := s.attempts ++ [(pullBatch s.migrated num b s.remaining).1.length],
        abortedWrite := true } := by
  simp [loopStep, h1, h2, h3, h4]

/-- Both handles are `_safe_close`d whenever they were opened, on every
stage at which the run can end. -/
theorem migrateRun_closes (stage : RunStage) (stop : Nat → Bool)
    (fault2 : Nat → Nat → WriteFault) (pct b : Nat) (cf : Nat → CollFault)
    (colls : List Collection) (sf tf : Bool) :
    ((migrateRun stage stop fault2 pct b cf colls sf tf).srcOpened = true →
      (migrateRun stage stop fault2 pct b cf colls sf tf).srcClose ≠ CloseOutcome.notCalled) ∧
    ((migrateRun stage stop fault2 pct b cf colls sf tf).tgtOpened = true →
      (migrateRun stage stop fault2 pct b cf colls sf tf).tgtClose ≠ CloseOutcome.notCalled) := by
  cases stage <;> cases sf <;> cases tf <;>
    simp [migrateRun, migrateBody, safeClose, safeCloseBody, closeCall]

/-! # The claims -/

/-- C3: the planner computes
`math.ceil(total_docs * (percentage / 100.0))` in binary64 floating
point, which differs from the exact integer ceiling `⌈N * p / 100⌉` the
spec prescribes: at `total_docs = 100`, `percentage = 7` the float
product `100 * (7 / 100.0)` equals `7 + 2 ^ (-50)`, so `num_to_migrate`
is 8 where the exact ceiling is 7 (and the spec's example
`N = 7, p = 50 → 4` does hold). -/
theorem C3_float_plan_diverges_from_exact_ceiling :
    num_to_migrate 100 7 = 8 ∧ ceilExactPlan 100 7 = 7 ∧
    num_to_migrate 7 50 = 4 ∧ ceilExactPlan 7 50 = 4 := by
  refine ⟨?_, ?_, ?_, ?_⟩ <;> decide

/-- C1: with a 100-document source collection, percentage 50 (plan = 50)
and batch size 30, no write faults and no cancellation, the batch-copy
loop pulls and writes two full batches of 30 after the first — because
the truncation guard inside the pull loop compares `migrated_count`,
which is constant during a pull — so 60 documents are written, not
`min(50, 100) = 50` as the claim states. -/
theorem C1_batch_copy_overshoots_plan :
    (migrateLoop noStop allOk 50 30 (initState (List.range 100) [] 0)).migrated = 60 ∧
    (migrateLoop noStop allOk 50 30 (initState (List.range 100) [] 0)).attempts = [30, 30] ∧
    (migrateLoop noStop allOk 50 30 (initState (List.range 100) [] 0)).target.length = 60 ∧
    num_to_migrate 100 50 = 50 ∧
    min ((num_to_migrate 100 50).toNat) (List.range 100).length = 50 := by
  refine ⟨?_, ?_, ?_, ?_, ?_⟩ <;> decide

/-- C10: for every cursor contents and batch size `b ≥ 1` the batch-copy
loop terminates: the fuelled loop returns one fixed result for every
fuel exceeding the cursor length, and every continuing iteration is
entered under the guard `migrated_count < num_to_migrate`, pulls a
non-empty batch, advances `migrated_count` by exactly its length and
strictly shrinks the cursor. -/
theorem C10_batch_loop_terminates (stop : Nat → Bool) (fault : Nat → WriteFault)
    (num b : Nat) (s : MigState) (hb : 1 ≤ b) :
    (∃ r, ∀ fuel, s.remaining.length < fuel →
        loopFuel stop fault num b fuel s = some r) ∧
    (∀ u u', loopStep stop fault num b u = .next u' →
        u.migrated < num ∧
        (pullBatch u.migrated num b u.remaining).1 ≠ [] ∧
        u'.migrated = u.migrated + (pullBatch u.migrated num b u.remaining).1.length ∧
        u'.remaining.length < u.remaining.length) := by
  constructor
  · refine ⟨migrateLoop stop fault num b s, ?_⟩
    intro fuel hf
    rw [loopFuel_stable stop fault num b (s.remaining.length + 1) fuel s (by omega) (by omega)]
    exact migrateLoop_eq_loopFuel stop fault num b s
  · intro u u' h
    obtain ⟨h1, -, h3, h4, -, -, -, -⟩ := loopStep_next_inv h
    exact ⟨h1, h3, h4, loopStep_next_remaining h⟩

/-- Witness for C10 at cursor `[5, 6, 7]`, plan 2, batch size 2. -/
theorem C10_batch_loop_terminates_witness :
    1 ≤ 2 ∧
    ((∃ r, ∀ fuel, (initState [5, 6, 7] [] 0).remaining.length < fuel →
        loopFuel noStop allOk 2 2 fuel (initState [5, 6, 7] [] 0) = some r) ∧
      (∀ u u', loopStep noStop allOk 2 2 u = .next u' →
        u.migrated < 2 ∧
        (pullBatch u.migrated 2 2 u.remaining).1 ≠ [] ∧
        u'.migrated = u.migrated + (pullBatch u.migrated 2 2 u.remaining).1.length ∧
        u'.remaining.length < u.remaining.length)) :=
  ⟨by decide, C10_batch_loop_terminates noStop allOk 2 2 (initState [5, 6, 7] [] 0) (by decide)⟩

/-- C4: when an entered iteration's `insert_many` hits duplicate keys
(documents already present in the target), the non-conflicting documents
of the same batch are still written by the unordered insert, the loop
continues with the next batch, `migrated_count` advances by the full
batch length including the rejected duplicates, and the number of
documents actually written is strictly smaller than that increment. -/
theorem C4_duplicate_keys_nonfatal (stop : Nat → Bool) (fault : Nat → WriteFault)
    (num b : Nat) (s : MigState)
    (h1 : s.migrated < num) (h2 : stop s.t = false)
    (h3 : (pullBatch s.migrated num b s.remaining).1 ≠ [])
    (h4 : fault s.attempts.length = WriteFault.ok) :
    (∀ d ∈ (pullBatch s.migrated num b s.remaining).1, d ∉ s.target →
        d ∈ (insertUnordered s.target (pullBatch s.migrated num b s.remaining).1).1) ∧
    (∃ s', loopStep stop fault num b s = .next s' ∧
        s'.migrated = s.migrated + (pullBatch s.migrated num b s.remaining).1.length ∧
        s'.abortedWrite = s.abortedWrite) ∧
    ((∃ d ∈ (pullBatch s.migrated num b s.remaining).1, d ∈ s.target) →
        (insertUnordered s.target (pullBatch s.migrated num b s.remaining).1).1.length
          < s.target.length + (pullBatch s.migrated num b s.remaining).1.length) := by
  refine ⟨?_, ?_, ?_⟩
  · intro d hd _
    exact (insertUnordered_mem d _ s.target).mpr (Or.inr hd)
  · exact ⟨_, loopStep_ok_eq h1 h2 h3 h4, rfl, rfl⟩
  · intro hex
    have hdup := insertUnordered_dup_pos (pullBatch s.migrated num b s.remaining).1 s.target hex
    have hlen := insertUnordered_length (pullBatch s.migrated num b s.remaining).1 s.target
    omega

/-- Witness for C4: batch `[1, 2]` against a target already holding 1. -/
theorem C4_duplicate_keys_nonfatal_witness :
    ((0 : Nat) < 5 ∧ noStop 0 = false ∧
      (pullBatch 0 5 2 [1, 2]).1 ≠ [] ∧ allOk 0 = WriteFault.ok) ∧
    ((∀ d ∈ (pullBatch 0 5 2 [1, 2]).1, d ∉ [1] →
        d ∈ (insertUnordered [1] (pullBatch 0 5 2 [1, 2]).1).1) ∧
      (∃ s', loopStep noStop allOk 5 2 ⟨0, [1, 2], [1], 0, [], false⟩ = .next s' ∧
        s'.migrated = 0 + (pullBatch 0 5 2 [1, 2]).1.length ∧
        s'.abortedWrite = false) ∧
      ((∃ d ∈ (pullBatch 0 5 2 [1, 2]).1, d ∈ [1]) →
        (insertUnordered [1] (pullBatch 0 5 2 [1, 2]).1).1.length
          < ([1] : List Nat).length + (pullBatch 0 5 2 [1, 2]).1.length)) :=
  ⟨⟨by decide, rfl, by decide, rfl⟩,
    C4_duplicate_keys_nonfatal noStop allOk 5 2 ⟨0, [1, 2], [1], 0, [], false⟩
      (by decide) rfl (by decide) rfl⟩

/-- C2: `insert_many` delivers per-document write errors — duplicate
key or otherwise — inside `BulkWriteError`, and the handler at lines
150-156 logs the non-11000 errors and falls through to
`migrated_count += len(docs)` and the next batch: it does not break.
On a 4-document cursor with plan 4 and batch size 2, where the first
batch's insert raises `BulkWriteError` rejecting document 2 with a
non-duplicate write error, the loop still attempts the second batch
(`attempts = [2, 2]`), advances `migrated_count` to 4 and never marks
the collection aborted — contradicting the claim that any non-duplicate
write error stops further batches for the collection.  Only an
operation-level `PyMongoError` that is not a `BulkWriteError` breaks
(second conjunct: one batch attempted, collection aborted), and either
way the run continues with the next collection and overall progress
reaches the full collection count (third conjunct). -/
theorem C2_bulk_write_error_does_not_abort :
    ((migrateLoop noStop (fun i => if i = 0 then WriteFault.bulkErr [2] else WriteFault.ok)
        4 2 (initState [1, 2, 3, 4] [] 0)).attempts = [2, 2] ∧
      (migrateLoop noStop (fun i => if i = 0 then WriteFault.bulkErr [2] else WriteFault.ok)
        4 2 (initState [1, 2, 3, 4] [] 0)).migrated = 4 ∧
      (migrateLoop noStop (fun i => if i = 0 then WriteFault.bulkErr [2] else WriteFault.ok)
        4 2 (initState [1, 2, 3, 4] [] 0)).abortedWrite = false ∧
      (migrateLoop noStop (fun i => if i = 0 then WriteFault.bulkErr [2] else WriteFault.ok)
        4 2 (initState [1, 2, 3, 4] [] 0)).target = [1, 3, 4]) ∧
    ((migrateLoop noStop (fun _ => WriteFault.pymongoErr)
        4 2 (initState [1, 2, 3, 4] [] 0)).attempts = [2] ∧
      (migrateLoop noStop (fun _ => WriteFault.pymongoErr)
        4 2 (initState [1, 2, 3, 4] [] 0)).migrated = 0 ∧
      (migrateLoop noStop (fun _ => WriteFault.pymongoErr)
        4 2 (initState [1, 2, 3, 4] [] 0)).abortedWrite = true) ∧
    (runColls noStop (fun _ _ => WriteFault.pymongoErr) 100 2 (fun _ => CollFault.ok)
        [⟨1, 2, [10, 11]⟩, ⟨2, 1, [20]⟩] 0 ⟨[], 0, 0, 0⟩).overall = 2 := by
  refine ⟨⟨?_, ?_, ?_, ?_⟩, ⟨?_, ?_, ?_⟩, ?_⟩ <;> decide

/-- C5 counterexample: the CLI validates only the percentage.  An
invocation with a valid percentage and batch size 0 — which the claim
says must terminate before any connection attempt — proceeds to call
`_migrate` and open connections. -/
theorem C5_counterexample_batch_size_unvalidated :
    cli_migrate 50 0 = CliOutcome.connected := by decide

/-- C5 (amended): an out-of-range percentage terminates the process
before any connection attempt, but the batch size is not validated: any
batch size, including values below 1, proceeds to open connections. -/
theorem C5_percentage_validated_before_connect (p b : Int) :
    ((p < 1 ∨ 100 < p) → cli_migrate p b = CliOutcome.exitedNoConnect) ∧
    (1 ≤ p → p ≤ 100 → cli_migrate p b = CliOutcome.connected) := by
  constructor
  · intro h
    have hn : ¬(1 ≤ p ∧ p ≤ 100) := by omega
    simp [cli_migrate, hn]
  · intro h1 h2
    simp [cli_migrate, h1, h2]

/-- Witness for the amended C5 at percentage 101 (exits) and at
percentage 50 with batch size 0 (connects). -/
theorem C5_percentage_validated_before_connect_witness :
    ((101 : Int) < 1 ∨ (100 : Int) < 101) ∧
    cli_migrate 101 5 = CliOutcome.exitedNoConnect ∧
    (1 : Int) ≤ 50 ∧ (50 : Int) ≤ 100 ∧
    cli_migrate 50 0 = CliOutcome.connected :=
  ⟨by decide,
    (C5_percentage_validated_before_connect 101 5).1 (by decide),
    by decide, by decide,
    (C5_percentage_validated_before_connect 50 0).2 (by decide) (by decide)⟩

/-- C6: a collection whose estimated count is 0 is handled by the empty
branch for any percentage: the target collection exists afterwards
(created empty iff absent, existing contents untouched), no cursor is
created, no documents are read or inserted, and the overall progress
advances by one. -/
theorem C6_empty_collection_created (stop : Nat → Bool) (fault : Nat → WriteFault)
    (pct b : Nat) (c : Collection) (db : List (Nat × List Nat)) (t : Nat)
    (hp1 : 1 ≤ pct) (hp2 : pct ≤ 100) (h0 : c.estCount = 0) :
    (processColl stop fault pct b CollFault.ok c db t).db
      = (if c.name ∈ dbNames db then db else db ++ [(c.name, [])]) ∧
    c.name ∈ dbNames (processColl stop fault pct b CollFault.ok c db t).db ∧
    (processColl stop fault pct b CollFault.ok c db t).docsRead = 0 ∧
    (processColl stop fault pct b CollFault.ok c db t).cursorCreated = false ∧
    (processColl stop fault pct b CollFault.ok c db t).attempts = [] ∧
    (processColl stop fault pct b CollFault.ok c db t).overallAdv = 1 := by
  refine ⟨by simp [processColl, h0], ?_, by simp [processColl, h0],
    by simp [processColl, h0], by simp [processColl, h0], by simp [processColl, h0]⟩
  by_cases hmem : c.name ∈ dbNames db
  · simp [processColl, h0, hmem]
  · have hdb : (processColl stop fault pct b CollFault.ok c db t).db
        = db ++ [(c.name, [])] := by simp [processColl, h0, hmem]
    rw [hdb]
    simp [dbNames]

/-- Witness for C6: empty collection named 3 against a target that does
not yet contain it, at percentage 50. -/
theorem C6_empty_collection_created_witness :
    (1 ≤ 50 ∧ 50 ≤ 100 ∧ (Collection.mk 3 0 []).estCount = 0) ∧
    ((processColl noStop allOk 50 10 CollFault.ok ⟨3, 0, []⟩ [(7, [1])] 0).db
      = (if (3 : Nat) ∈ dbNames [(7, [1])] then [(7, [1])] else [(7, [1])] ++ [(3, [])]) ∧
    (3 : Nat) ∈ dbNames (processColl noStop allOk 50 10 CollFault.ok ⟨3, 0, []⟩ [(7, [1])] 0).db ∧
    (processColl noStop allOk 50 10 CollFault.ok ⟨3, 0, []⟩ [(7, [1])] 0).docsRead = 0 ∧
    (processColl noStop allOk 50 10 CollFault.ok ⟨3, 0, []⟩ [(7, [1])] 0).cursorCreated = false ∧
    (processColl noStop allOk 50 10 CollFault.ok ⟨3, 0, []⟩ [(7, [1])] 0).attempts = [] ∧
    (processColl noStop allOk 50 10 CollFault.ok ⟨3, 0, []⟩ [(7, [1])] 0).overallAdv = 1) :=
  ⟨⟨by decide, by decide, rfl⟩,
    C6_empty_collection_created noStop allOk 50 10 ⟨3, 0, []⟩ [(7, [1])] 0
      (by decide) (by decide) rfl⟩

/-- C9: whenever per-collection processing created a cursor, the cursor
is closed by the time the collection's processing ends — on every exit
of the batch loop (normal, exhaustion, write abort, unexpected
exception, cancellation), because the close sits in the `finally` of
lines 168-172. -/
theorem C9_cursor_released_on_every_exit (stop : Nat → Bool) (fault : Nat → WriteFault)
    (pct b : Nat) (cf : CollFault) (c : Collection)
    (db : List (Nat × List Nat)) (t : Nat)
    (h : (processColl stop fault pct b cf c db t).cursorCreated = true) :
    (processColl stop fault pct b cf c db t).cursorClosed = true := by
  cases cf <;> by_cases h0 : c.estCount = 0 <;> simp_all [processColl]

/-- Witness for C9: a 1-document collection is fully copied and its
cursor was created, hence closed. -/
theorem C9_cursor_released_on_every_exit_witness :
    (processColl noStop allOk 100 1 CollFault.ok ⟨1, 1, [4]⟩ [] 0).cursorCreated = true ∧
    (processColl noStop allOk 100 1 CollFault.ok ⟨1, 1, [4]⟩ [] 0).cursorClosed = true :=
  ⟨by decide,
    C9_cursor_released_on_every_exit noStop allOk 100 1 CollFault.ok ⟨1, 1, [4]⟩ [] 0
      (by decide)⟩

/-- C7: once the (monotone, never-reset) stop flag is set by sample
index `s0`: the batch loop attempts no insert at or beyond that index —
at most one batch of work after the flag is raised — and no collection
is started at or beyond it; the loop still returns with bounded fuel, so
the run terminates; an entered iteration issues its write regardless of
later flag samples (in-flight writes complete); and both connections are
closed whenever they were opened. -/
theorem C7_cancellation_stops_promptly (stop : Nat → Bool) (s0 : Nat)
    (hmono : ∀ i, stop i = true → stop (i + 1) = true) (hs0 : stop s0 = true) :
    (∀ (fault : Nat → WriteFault) (num b fuel : Nat) (s r : MigState),
        loopFuel stop fault num b fuel s = some r →
        r.attempts.length ≤ s.attempts.length + (s0 - s.t)) ∧
    (∀ (fault2 : Nat → Nat → WriteFault) (pct b : Nat) (cf : Nat → CollFault)
        (colls : List Collection) (i : Nat) (st : RunState),
        (runColls stop fault2 pct b cf colls i st).collsStarted
          ≤ st.collsStarted + (s0 - st.t)) ∧
    (∀ (fault : Nat → WriteFault) (num b : Nat) (s : MigState),
        (loopFuel stop fault num b (s.remaining.length + 1) s).isSome = true) ∧
    (∀ (fault : Nat → WriteFault) (num b : Nat) (s s' : MigState),
        loopStep stop fault num b s = .next s' →
        s'.attempts = s.attempts ++ [(pullBatch s.migrated num b s.remaining).1.length]) ∧
    (∀ (stage : RunStage) (fault2 : Nat → Nat → WriteFault) (pct b : Nat)
        (cf : Nat → CollFault) (colls : List Collection) (sf tf : Bool),
        ((migrateRun stage stop fault2 pct b cf colls sf tf).srcOpened = true →
          (migrateRun stage stop fault2 pct b cf colls sf tf).srcClose
            ≠ CloseOutcome.notCalled) ∧
        ((migrateRun stage stop fault2 pct b cf colls sf tf).tgtOpened = true →
          (migrateRun stage stop fault2 pct b cf colls sf tf).tgtClose
            ≠ CloseOutcome.notCalled)) := by
  refine ⟨?_, ?_, ?_, ?_, ?_⟩
  · exact fun fault num b fuel s r h =>
      loopFuel_attempts_bound stop fault num b s0 hmono hs0 fuel s r h
  · exact fun fault2 pct b cf colls i st =>
      runColls_started_bound stop fault2 pct b cf s0 hmono hs0 colls i st
  · exact fun fault num b s => loopFuel_isSome stop fault num b _ s (by omega)
  · intro fault num b s s' h
    obtain ⟨-, -, -, -, -, -, hatt, -⟩ := loopStep_next_inv h
    exact hatt
  · exact fun stage fault2 pct b cf colls sf tf =>
      migrateRun_closes stage stop fault2 pct b cf colls sf tf

/-- Witness for C7 with the schedule that raises the flag from sample
index 1 on. -/
theorem C7_cancellation_stops_promptly_witness :
    (∀ i, (fun j => decide (1 ≤ j)) i = true → (fun j => decide (1 ≤ j)) (i + 1) = true) ∧
    (fun j => decide (1 ≤ j)) 1 = true ∧
    ((∀ (fault : Nat → WriteFault) (num b fuel : Nat) (s r : MigState),
        loopFuel (fun j => decide (1 ≤ j)) fault num b fuel s = some r →
        r.attempts.length ≤ s.attempts.length + (1 - s.t)) ∧
    (∀ (fault2 : Nat → Nat → WriteFault) (pct b : Nat) (cf : Nat → CollFault)
        (colls : List Collection) (i : Nat) (st : RunState),
        (runColls (fun j => decide (1 ≤ j)) fault2 pct b cf colls i st).collsStarted
          ≤ st.collsStarted + (1 - st.t)) ∧
    (∀ (fault : Nat → WriteFault) (num b : Nat) (s : MigState),
        (loopFuel (fun j => decide (1 ≤ j)) fault num b (s.remaining.length + 1) s).isSome
          = true) ∧
    (∀ (fault : Nat → WriteFault) (num b : Nat) (s s' : MigState),
        loopStep (fun j => decide (1 ≤ j)) fault num b s = .next s' →
        s'.attempts = s.attempts ++ [(pullBatch s.migrated num b s.remaining).1.length]) ∧
    (∀ (stage : RunStage) (fault2 : Nat → Nat → WriteFault) (pct b : Nat)
        (cf : Nat → CollFault) (colls : List Collection) (sf tf : Bool),
        ((migrateRun stage (fun j => decide (1 ≤ j)) fault2 pct b cf colls sf tf).srcOpened
            = true →
          (migrateRun stage (fun j => decide (1 ≤ j)) fault2 pct b cf colls sf tf).srcClose
            ≠ CloseOutcome.notCalled) ∧
        ((migrateRun stage (fun j => decide (1 ≤ j)) fault2 pct b cf colls sf tf).tgtOpened
            = true →
          (migrateRun stage (fun j => decide (1 ≤ j)) fault2 pct b cf colls sf tf).tgtClose
            ≠ CloseOutcome.notCalled))) :=
  ⟨fun i _ => decide_eq_true (by omega), by decide,
    C7_cancellation_stops_promptly (fun j => decide (1 ≤ j)) 1
      (fun i _ => decide_eq_true (by omega)) (by decide)⟩

/-- C8: on every exit path of a run — whichever stage the environment
ends it at, including unexpected exceptions and cancellation — each
handle that was opened has `_safe_close` called on it; `_safe_close` on
a `None` handle is a no-op; and an exception raised while closing is
caught (the catch handler turns every raising body into a normal
return), so close never raises. -/
theorem C8_connections_always_closed :
    (∀ (stage : RunStage) (stop : Nat → Bool) (fault2 : Nat → Nat → WriteFault)
        (pct b : Nat) (cf : Nat → CollFault) (colls : List Collection) (sf tf : Bool),
        ((migrateRun stage stop fault2 pct b cf colls sf tf).srcOpened = true →
          (migrateRun stage stop fault2 pct b cf colls sf tf).srcClose
            ≠ CloseOutcome.notCalled) ∧
        ((migrateRun stage stop fault2 pct b cf colls sf tf).tgtOpened = true →
          (migrateRun stage stop fault2 pct b cf colls sf tf).tgtClose
            ≠ CloseOutcome.notCalled)) ∧
    (∀ f, safeClose none f = CloseOutcome.notCalled) ∧
    (∀ (c : Option Unit) (f : Bool) (e : String),
        safeCloseBody c f = Except.error e →
        safeClose c f = CloseOutcome.closeRaisedCaught) := by
  refine ⟨?_, ?_, ?_⟩
  · exact fun stage stop fault2 pct b cf colls sf tf =>
      migrateRun_closes stage stop fault2 pct b cf colls sf tf
  · intro f; rfl
  · intro c f e h; simp [safeClose, h]

/-- Witness for C8: a run failing at the ping stage with a close that
itself raises; the raise is swallowed and both handles were closed. -/
theorem C8_connections_always_closed_witness :
    ((migrateRun RunStage.pingFail noStop (fun _ _ => WriteFault.ok) 100 1
        (fun _ => CollFault.ok) [] true true).srcOpened = true ∧
      safeCloseBody (some ()) true = Except.error "close error") ∧
    ((migrateRun RunStage.pingFail noStop (fun _ _ => WriteFault.ok) 100 1
        (fun _ => CollFault.ok) [] true true).srcClose ≠ CloseOutcome.notCalled) ∧
    safeClose none true = CloseOutcome.notCalled ∧
    safeClose (some ()) true = CloseOutcome.closeRaisedCaught :=
  ⟨⟨by decide, rfl⟩,
    (C8_connections_always_closed.1 RunStage.pingFail noStop (fun _ _ => WriteFault.ok)
      100 1 (fun _ => CollFault.ok) [] true true).1 (by decide),
    C8_connections_always_closed.2.1 true,
    C8_connections_always_closed.2.2 (some ()) true "close error" rfl⟩
